import Mathlib

/-!
Verification of the Gamma distribution class
(`tensorflow/contrib/distributions/python/ops/gamma.py`).

The tensor runtime is modelled shallowly: a tensor is a dtype together with
a list of element values and a list of pending runtime assertions
(TensorFlow control dependencies).  Graph construction is eager Lean
computation; `Tensor.run` realizes a value the way `session.run` would,
firing the attached assertion ops.  The framework's elementwise special
functions (`math_ops.log`, `exp`, `lgamma`, `digamma`, `igamma`) live
outside the translated file and are abstracted as a `MathOps` record; a
real-number instantiation `realOps` is given for analytic facts.
-/

/-- Floating point dtypes (`tf.float32` / `tf.float64`). -/
inductive DType : Type where
  | float32 : DType
  | float64 : DType
deriving DecidableEq, Repr

/-- The two error kinds of the spec: `TypeMismatchError` (mismatched
precisions, raised eagerly by `assert_same_float_dtype`) and `DomainError`
(a positivity assertion fired when a value is realized). -/
inductive Err : Type where
  | typeMismatch : Err
  | domainError : Err
deriving DecidableEq, Repr

/-- A tensor: a dtype, element values, and the runtime assertions
(control dependencies) that must pass before the value may be realized. -/
structure Tensor (α : Type) : Type where
  dtype : DType
  vals : List α
  checks : List Bool
deriving DecidableEq

/-- Elementwise combination with TensorFlow-style broadcasting for the
shapes exercised here: a scalar (singleton) broadcasts against a vector,
equal-length vectors combine pointwise. -/
def bmap2 {α : Type} (f : α → α → α) : List α → List α → List α
  | [a], l => l.map (fun v => f a v)
  | l, [b] => l.map (fun v => f v b)
  | l, l' => List.zipWith f l l'

/-- Elementwise binary op on tensors.  The result's dtype follows the left
operand; the result depends on both operands, so running it fires the
assertions attached to either. -/
def Tensor.binop {α : Type} (f : α → α → α) (t u : Tensor α) : Tensor α :=
  ⟨t.dtype, bmap2 f t.vals u.vals, t.checks ++ u.checks⟩

/-- Elementwise unary op on a tensor. -/
def Tensor.unop {α : Type} (f : α → α) (t : Tensor α) : Tensor α :=
  ⟨t.dtype, t.vals.map f, t.checks⟩

/-- `check_ops.assert_positive`: the assertion op's verdict — every element
strictly positive. -/
def Tensor.assertPositive {α : Type} [LinearOrderedField α] (t : Tensor α) : Bool :=
  t.vals.all (fun v => decide (0 < v))

/-- `control_flow_ops.with_dependencies(deps, t)`: the same value, with the
assertion ops prepended so they fire whenever the value is realized. -/
def Tensor.withDeps {α : Type} (deps : List Bool) (t : Tensor α) : Tensor α :=
  ⟨t.dtype, t.vals, deps ++ t.checks⟩

/-- Realizing a tensor (`session.run`): the attached assertion ops fire
first; a failed positivity assertion surfaces as `DomainError`. -/
def Tensor.run {α : Type} (t : Tensor α) : Except Err (List α) :=
  if t.checks.all (fun c => c) then Except.ok t.vals else Except.error Err.domainError

/-- Realize the tensor produced by a fallible graph-building call. -/
def runE {α : Type} (r : Except Err (Tensor α)) : Except Err (List α) :=
  r.bind Tensor.run

/-- Modelled from the spec: the host framework's elementwise transcendental
and special functions (natural log, exponential, log-gamma, digamma,
regularized lower incomplete gamma), required capabilities of the external
numerical runtime (`math_ops`), whose code is not part of the translated
file. -/
structure MathOps (α : Type) : Type where
  log : α → α
  exp : α → α
  lgamma : α → α
  digamma : α → α
  igamma : α → α → α

/-- The Gamma distribution object: parameters, op-scope name, the summary
statistics built during `__init__`, and the positivity-assertion ops that
`__init__` creates under its `control_dependencies` block.  Because the
only statements inside that block are Python attribute assignments (no op
is created there), those assertion ops are attached to no stored tensor;
the field `pendingAsserts` records their verdicts. -/
structure Gamma (α : Type) : Type where
  alpha : Tensor α
  beta : Tensor α
  name : String
  pendingAsserts : List Bool
  mean : Tensor α
  variance : Tensor α
deriving DecidableEq

/-- `Gamma.__init__`: `assert_same_float_dtype((alpha, beta))` raises
eagerly on a precision mismatch; positivity asserts for `alpha` and `beta`
are created (recorded in `pendingAsserts`) but bind to nothing;
`mean = alpha / beta` and `variance = alpha / square(beta)` are built
during construction. -/
def Gamma.make {α : Type} [LinearOrderedField α] (alpha beta : Tensor α)
    (name : String) : Except Err (Gamma α) :=
  if alpha.dtype = beta.dtype then
    Except.ok
      ⟨alpha, beta, name,
       [Tensor.assertPositive alpha, Tensor.assertPositive beta],
       Tensor.binop (fun a b => a / b) alpha beta,
       Tensor.binop (fun a b => a / b) alpha (Tensor.unop (fun b => b * b) beta)⟩
  else Except.error Err.typeMismatch

/-- `dtype` property: the dtype of `alpha`. -/
def Gamma.dtype {α : Type} (g : Gamma α) : DType :=
  g.alpha.dtype

/-- `batch_shape()`: the runtime shape of `mean` (modelled as its length,
all tensors here being rank ≤ 1). -/
def Gamma.batch_shape {α : Type} (g : Gamma α) : Nat :=
  g.mean.vals.length

/-- `get_event_shape()`: always the empty (scalar) shape. -/
def Gamma.get_event_shape {α : Type} (_ : Gamma α) : List Nat :=
  []

/-- `is_reparameterized` property: the constant `False`. -/
def Gamma.is_reparameterized {α : Type} (_ : Gamma α) : Bool :=
  false

/-- `Gamma.log_pdf`: `x` is converted, a positivity assert is attached via
`with_dependencies`, `assert_same_float_dtype` raises eagerly on precision
mismatch, and the returned tensor is
`alpha * log(beta) + (alpha - 1) * log(x) - beta * x - lgamma(alpha)`. -/
def Gamma.log_pdf {α : Type} [LinearOrderedField α] (ops : MathOps α)
    (g : Gamma α) (x : Tensor α) : Except Err (Tensor α) :=
  let a := g.alpha
  let b := g.beta
  let x' := Tensor.withDeps [Tensor.assertPositive x] x
  if x.dtype = g.dtype then
    Except.ok
      (Tensor.binop (fun u v => u - v)
        (Tensor.binop (fun u v => u - v)
          (Tensor.binop (fun u v => u + v)
            (Tensor.binop (fun u v => u * v) a (Tensor.unop ops.log b))
            (Tensor.binop (fun u v => u * v) (Tensor.unop (fun v => v - 1) a)
              (Tensor.unop ops.log x')))
          (Tensor.binop (fun u v => u * v) b x'))
        (Tensor.unop ops.lgamma a))
  else Except.error Err.typeMismatch

/-- `Gamma.pdf`: `exp(self.log_pdf(x))`. -/
def Gamma.pdf {α : Type} [LinearOrderedField α] (ops : MathOps α)
    (g : Gamma α) (x : Tensor α) : Except Err (Tensor α) :=
  (Gamma.log_pdf ops g x).map (Tensor.unop ops.exp)

/-- `Gamma.log_cdf`: same conversion, attached positivity assert and eager
dtype assert as `log_pdf`; returns `log(igamma(alpha, beta * x))` with no
guard on the inner value. -/
def Gamma.log_cdf {α : Type} [LinearOrderedField α] (ops : MathOps α)
    (g : Gamma α) (x : Tensor α) : Except Err (Tensor α) :=
  let x' := Tensor.withDeps [Tensor.assertPositive x] x
  if x.dtype = g.dtype then
    Except.ok
      (Tensor.unop ops.log
        (Tensor.binop ops.igamma g.alpha
          (Tensor.binop (fun u v => u * v) g.beta x')))
  else Except.error Err.typeMismatch

/-- `Gamma.cdf`: returns `igamma(alpha, beta * x)` directly — unlike
`log_pdf` and `log_cdf` it neither converts `x`, nor attaches a positivity
assert, nor checks `x`'s dtype. -/
def Gamma.cdf {α : Type} [LinearOrderedField α] (ops : MathOps α)
    (g : Gamma α) (x : Tensor α) : Tensor α :=
  Tensor.binop ops.igamma g.alpha (Tensor.binop (fun u v => u * v) g.beta x)

/-- `Gamma.entropy`:
`alpha - log(beta) + lgamma(alpha) + (1 - alpha) * digamma(alpha)`. -/
def Gamma.entropy {α : Type} [LinearOrderedField α] (ops : MathOps α)
    (g : Gamma α) : Tensor α :=
  let a := g.alpha
  let b := g.beta
  Tensor.binop (fun u v => u + v)
    (Tensor.binop (fun u v => u + v)
      (Tensor.binop (fun u v => u - v) a (Tensor.unop ops.log b))
      (Tensor.unop ops.lgamma a))
    (Tensor.binop (fun u v => u * v) (Tensor.unop (fun v => 1 - v) a)
      (Tensor.unop ops.digamma a))

/-- An instantiation of the framework's math functions over `ℚ` used to
exercise the control-flow behavior (validation, error propagation), which
is independent of the functions' values. -/
def ratOps : MathOps ℚ :=
  ⟨fun _ => 0, fun _ => 1, fun _ => 0, fun _ => 0, fun _ _ => 0⟩

/-- Modelled from the spec: the regularized lower incomplete gamma
function `P(a, s) = γ(a, s) / Γ(a)` (the framework's `math_ops.igamma`,
whose implementation is not part of the translated file), written with the
same integrand as Euler's integral for `Γ`. -/
noncomputable def igammaReal (a s : ℝ) : ℝ :=
  (∫ t in (0:ℝ)..s, Real.exp (-t) * t ^ (a - 1)) / Real.Gamma a

/-- Modelled from the spec: the real-number semantics of the framework's
elementwise math functions (`log`, `exp`, `lgamma = log ∘ abs ∘ Γ`,
`digamma = (log ∘ Γ)'`, regularized lower incomplete gamma). -/
noncomputable def realOps : MathOps ℝ :=
  ⟨Real.log, Real.exp,
   fun a => Real.log |Real.Gamma a|,
   fun a => deriv (fun s => Real.log (Real.Gamma s)) a,
   igammaReal⟩

/-- The outcome of a call followed by realization of its result: `none` if
a value is obtained, otherwise the error raised. -/
def errOf {α : Type} (r : Except Err (Tensor α)) : Option Err :=
  match runE r with
  | Except.ok _ => none
  | Except.error e => some e

/-- The literal object that
`Gamma.make ⟨float64, [a], []⟩ ⟨float64, [b], []⟩ "Gamma"` produces — a
concrete scalar (singleton-batch) distribution. -/
def mkG {α : Type} [LinearOrderedField α] (a b : α) : Gamma α :=
  ⟨⟨DType.float64, [a], []⟩, ⟨DType.float64, [b], []⟩, "Gamma",
   [Tensor.assertPositive (⟨DType.float64, [a], []⟩ : Tensor α),
    Tensor.assertPositive (⟨DType.float64, [b], []⟩ : Tensor α)],
   Tensor.binop (fun u v => u / v) ⟨DType.float64, [a], []⟩ ⟨DType.float64, [b], []⟩,
   Tensor.binop (fun u v => u / v) ⟨DType.float64, [a], []⟩
     (Tensor.unop (fun v => v * v) ⟨DType.float64, [b], []⟩)⟩

theorem make_mkG {α : Type} [LinearOrderedField α] (a b : α) :
    Gamma.make (⟨DType.float64, [a], []⟩ : Tensor α) ⟨DType.float64, [b], []⟩
      "Gamma" = Except.ok (mkG a b) := rfl

/-- Claim C1 counterexample: for the distribution built from
`alpha = [3]`, `beta = [2]`, calling `cdf` on `x = [-1]` (a non-positive
element) attaches no assertion at all, and realizing the result yields a
value rather than raising `DomainError`. -/
theorem cdf_nonpositive_no_error :
    (Gamma.cdf ratOps (mkG 3 2) ⟨DType.float64, [-1], []⟩).checks = [] ∧
    (Gamma.cdf ratOps (mkG 3 2) ⟨DType.float64, [-1], []⟩).run = Except.ok [0] :=
  ⟨rfl, rfl⟩

/-- Claim C1 (amended): `cdf` performs no validation of `x` whatsoever —
it neither attaches a positivity assertion nor checks the dtype; on inputs
whose tensors carry no prior assertions it returns
`igamma(alpha, beta * x)` and realization always succeeds, for
non-positive `x` included. -/
theorem cdf_unvalidated {α : Type} [LinearOrderedField α] (ops : MathOps α)
    (g : Gamma α) (x : Tensor α)
    (hga : g.alpha.checks = []) (hgb : g.beta.checks = []) (hx : x.checks = []) :
    (Gamma.cdf ops g x).checks = [] ∧
    (Gamma.cdf ops g x).run =
      Except.ok (bmap2 ops.igamma g.alpha.vals
        (bmap2 (fun u v => u * v) g.beta.vals x.vals)) := by
  constructor
  · simp [Gamma.cdf, Tensor.binop, hga, hgb, hx]
  · simp [Gamma.cdf, Tensor.binop, Tensor.run, hga, hgb, hx]

/-- Witness for `cdf_unvalidated` at `alpha = [3]`, `beta = [2]`,
`x = [-2]`. -/
theorem cdf_unvalidated_witness :
    (Gamma.cdf ratOps (mkG (3:ℚ) 2) ⟨DType.float64, [-2], []⟩).checks = [] ∧
    (Gamma.cdf ratOps (mkG (3:ℚ) 2) ⟨DType.float64, [-2], []⟩).run =
      Except.ok (bmap2 ratOps.igamma (mkG (3:ℚ) 2).alpha.vals
        (bmap2 (fun u v => u * v) (mkG (3:ℚ) 2).beta.vals [-2])) :=
  cdf_unvalidated ratOps (mkG 3 2) ⟨DType.float64, [-2], []⟩ rfl rfl rfl

/-- Claim C2 counterexample: construction with `alpha = [-1]` (a
non-positive element, same dtype as `beta`) succeeds and the resulting
object, with its non-positive parameter, is observable. -/
theorem make_accepts_nonpositive :
    (Gamma.make (⟨DType.float32, [-1], []⟩ : Tensor ℚ) ⟨DType.float32, [1], []⟩
        "Gamma").map (fun g => g.alpha.vals) = Except.ok [-1] :=
  rfl

/-- Claim C2 (amended): construction validates only the dtypes eagerly;
whenever `alpha` and `beta` share a dtype it succeeds — regardless of
signs — storing `alpha` and `beta` unchanged.  The two positivity
assertion ops are created (`pendingAsserts`), but since the
`control_dependencies` block around the attribute assignments creates no
op, they are attached to nothing: in particular the checks carried by
`mean` are exactly those the inputs already carried. -/
theorem make_no_eager_positivity {α : Type} [LinearOrderedField α]
    (alpha beta : Tensor α) (n : String) (h : alpha.dtype = beta.dtype) :
    (Gamma.make alpha beta n).map
        (fun g => (g.alpha, g.beta, g.pendingAsserts, g.mean.checks))
      = Except.ok (alpha, beta,
          [Tensor.assertPositive alpha, Tensor.assertPositive beta],
          alpha.checks ++ beta.checks) := by
  unfold Gamma.make
  rw [if_pos h]
  rfl

/-- Witness for `make_no_eager_positivity` at `alpha = [-5]`,
`beta = [2]`. -/
theorem make_no_eager_positivity_witness :
    (Gamma.make (⟨DType.float32, [(-5:ℚ)], []⟩ : Tensor ℚ)
        ⟨DType.float32, [2], []⟩ "G").map
        (fun g => (g.alpha, g.beta, g.pendingAsserts, g.mean.checks))
      = Except.ok (⟨DType.float32, [(-5:ℚ)], []⟩, ⟨DType.float32, [2], []⟩,
          [Tensor.assertPositive (⟨DType.float32, [(-5:ℚ)], []⟩ : Tensor ℚ),
           Tensor.assertPositive (⟨DType.float32, [(2:ℚ)], []⟩ : Tensor ℚ)],
          [] ++ []) :=
  make_no_eager_positivity ⟨DType.float32, [(-5:ℚ)], []⟩ ⟨DType.float32, [2], []⟩
    "G" rfl

/-- Claim C4: `pdf` is `exp` composed with `log_pdf` — realizing `pdf`'s
result yields exactly the elementwise `exp` of what realizing `log_pdf`'s
result yields, and the two calls raise precisely the same errors (eager
`TypeMismatchError` and realized `DomainError` alike). -/
theorem pdf_exp_of_log_pdf {α : Type} [LinearOrderedField α] (ops : MathOps α)
    (g : Gamma α) (x : Tensor α) (e : Err) :
    runE (Gamma.pdf ops g x) = (runE (Gamma.log_pdf ops g x)).map (List.map ops.exp) ∧
    (Gamma.pdf ops g x = Except.error e ↔ Gamma.log_pdf ops g x = Except.error e) := by
  constructor
  · unfold Gamma.pdf runE
    cases hlp : Gamma.log_pdf ops g x with
    | error err => rfl
    | ok t =>
      show (Tensor.unop ops.exp t).run = Except.map (List.map ops.exp) t.run
      unfold Tensor.run
      by_cases h : t.checks.all (fun c => c)
      · simp [Tensor.unop, h, Except.map]
      · simp [Tensor.unop, h, Except.map]
  · unfold Gamma.pdf
    cases hlp : Gamma.log_pdf ops g x with
    | error err => exact Iff.rfl
    | ok t =>
      exact ⟨fun hh => absurd hh (by simp [Except.map]),
             fun hh => absurd hh (by simp)⟩

/-- Claim C6: the summary statistics stored at construction satisfy
`mean = alpha / beta` and `variance = alpha / beta ^ 2` elementwise; in
particular `alpha = 3`, `beta = 2` gives `mean = 3/2` and
`variance = 3/4`. -/
theorem mean_variance_formula {α : Type} [LinearOrderedField α]
    (d : DType) (a b : α) (g : Gamma α)
    (hg : Gamma.make ⟨d, [a], []⟩ ⟨d, [b], []⟩ "Gamma" = Except.ok g) :
    (g.mean.vals = [a / b] ∧ g.variance.vals = [a / b ^ 2]) ∧
    ((Gamma.make (⟨DType.float64, [(3:ℚ)], []⟩ : Tensor ℚ)
        ⟨DType.float64, [2], []⟩ "Gamma").map
        (fun g2 => (g2.mean.vals, g2.variance.vals))
      = Except.ok ([3/2], [3/4])) := by
  constructor
  · simp only [Gamma.make, if_pos rfl] at hg
    cases hg
    constructor
    · rfl
    · show [a / (b * b)] = [a / b ^ 2]
      rw [pow_two]
  · have h22 : ((2:ℚ) * 2) = 4 := by norm_num
    show Except.ok ([(3:ℚ)/2], [3/(2*2)]) = Except.ok ([3/2], [3/4])
    rw [h22]

/-- Witness for `mean_variance_formula` at `alpha = [5]`, `beta = [4]`. -/
theorem mean_variance_formula_witness :
    (((mkG (5:ℚ) 4).mean.vals = [5 / 4] ∧
      (mkG (5:ℚ) 4).variance.vals = [5 / 4 ^ 2]) ∧
    ((Gamma.make (⟨DType.float64, [(3:ℚ)], []⟩ : Tensor ℚ)
        ⟨DType.float64, [2], []⟩ "Gamma").map
        (fun g2 => (g2.mean.vals, g2.variance.vals))
      = Except.ok ([3/2], [3/4]))) :=
  mean_variance_formula DType.float64 5 4 (mkG 5 4) (make_mkG 5 4)

/-- Claim C7: `entropy` takes no input beyond the parameters, returns
`alpha - log(beta) + lgamma(alpha) + (1 - alpha) * digamma(alpha)`
elementwise, and — being built from assertion-free parameter tensors —
realizes without any failure. -/
theorem entropy_formula {α : Type} [LinearOrderedField α] (ops : MathOps α)
    (d : DType) (a b : α) (g : Gamma α)
    (hg : Gamma.make ⟨d, [a], []⟩ ⟨d, [b], []⟩ "Gamma" = Except.ok g) :
    (Gamma.entropy ops g).vals
      = [a - ops.log b + ops.lgamma a + (1 - a) * ops.digamma a] ∧
    (Gamma.entropy ops g).run
      = Except.ok [a - ops.log b + ops.lgamma a + (1 - a) * ops.digamma a] := by
  simp only [Gamma.make, if_pos rfl] at hg
  cases hg
  exact ⟨rfl, rfl⟩

/-- Witness for `entropy_formula` at `alpha = [3]`, `beta = [2]` over `ℚ`. -/
theorem entropy_formula_witness :
    (Gamma.entropy ratOps (mkG (3:ℚ) 2)).vals
      = [3 - ratOps.log 2 + ratOps.lgamma 3 + (1 - 3) * ratOps.digamma 3] ∧
    (Gamma.entropy ratOps (mkG (3:ℚ) 2)).run
      = Except.ok [3 - ratOps.log 2 + ratOps.lgamma 3 + (1 - 3) * ratOps.digamma 3] :=
  entropy_formula ratOps DType.float64 3 2 (mkG 3 2) (make_mkG 3 2)

/-- Claim C9: a precision mismatch raises `TypeMismatchError` — eagerly at
construction when `alpha` and `beta` differ, and eagerly at the call when
`x`'s dtype differs from the distribution's `dtype` in `log_pdf` or
`log_cdf`. -/
theorem dtype_mismatch_raises {α : Type} [LinearOrderedField α] (ops : MathOps α)
    (alpha beta x : Tensor α) (n : String) (g : Gamma α)
    (hab : alpha.dtype ≠ beta.dtype) (hx : x.dtype ≠ Gamma.dtype g) :
    Gamma.make alpha beta n = Except.error Err.typeMismatch ∧
    Gamma.log_pdf ops g x = Except.error Err.typeMismatch ∧
    Gamma.log_cdf ops g x = Except.error Err.typeMismatch := by
  refine ⟨?_, ?_, ?_⟩ <;>
    simp [Gamma.make, Gamma.log_pdf, Gamma.log_cdf, hab, hx]

/-- Witness for `dtype_mismatch_raises`: `float32` `alpha` against
`float64` `beta`, and a `float32` `x` against a `float64` distribution. -/
theorem dtype_mismatch_raises_witness :
    Gamma.make (⟨DType.float32, [(1:ℚ)], []⟩ : Tensor ℚ)
        ⟨DType.float64, [1], []⟩ "Gamma" = Except.error Err.typeMismatch ∧
    Gamma.log_pdf ratOps (mkG (3:ℚ) 2) ⟨DType.float32, [1], []⟩
        = Except.error Err.typeMismatch ∧
    Gamma.log_cdf ratOps (mkG (3:ℚ) 2) ⟨DType.float32, [1], []⟩
        = Except.error Err.typeMismatch :=
  dtype_mismatch_raises ratOps ⟨DType.float32, [1], []⟩ ⟨DType.float64, [1], []⟩
    ⟨DType.float32, [1], []⟩ "Gamma" (mkG 3 2) (by decide) (by decide)

/-- Claim C10: every query is a pure function of `(alpha, beta, x)`: two
objects agreeing on `alpha` and `beta` (whatever their names or other
fields) give identical results for `log_pdf`, `pdf`, `log_cdf`, `cdf`,
`entropy`, `dtype` and `is_reparameterized`; and two constructions from
the same parameters under different op-scope names agree on the
`mean` / `variance` / shape accessors.  No operation returns a modified
object — all are read-only by type. -/
theorem queries_pure_deterministic {α : Type} [LinearOrderedField α]
    (ops : MathOps α) (g1 g2 : Gamma α) (x a b : Tensor α) (n1 n2 : String)
    (ha : g1.alpha = g2.alpha) (hb : g1.beta = g2.beta) :
    (Gamma.log_pdf ops g1 x = Gamma.log_pdf ops g2 x ∧
     Gamma.pdf ops g1 x = Gamma.pdf ops g2 x ∧
     Gamma.log_cdf ops g1 x = Gamma.log_cdf ops g2 x ∧
     Gamma.cdf ops g1 x = Gamma.cdf ops g2 x ∧
     Gamma.entropy ops g1 = Gamma.entropy ops g2 ∧
     Gamma.dtype g1 = Gamma.dtype g2 ∧
     Gamma.is_reparameterized g1 = Gamma.is_reparameterized g2) ∧
    (Gamma.make a b n1).map
        (fun g => (g.mean, g.variance, Gamma.batch_shape g, Gamma.get_event_shape g))
      = (Gamma.make a b n2).map
        (fun g => (g.mean, g.variance, Gamma.batch_shape g, Gamma.get_event_shape g)) := by
  constructor
  · refine ⟨?_, ?_, ?_, ?_, ?_, ?_, rfl⟩ <;>
      simp [Gamma.log_pdf, Gamma.pdf, Gamma.log_cdf, Gamma.cdf, Gamma.entropy,
        Gamma.dtype, ha, hb]
  · unfold Gamma.make
    by_cases h : a.dtype = b.dtype
    · simp only [if_pos h]
      rfl
    · simp only [if_neg h]

/-- Witness for `queries_pure_deterministic`: two objects sharing
parameters but differing in `name`, and two constructions under different
names. -/
theorem queries_pure_deterministic_witness :
    ((Gamma.log_pdf ratOps (mkG (3:ℚ) 2) ⟨DType.float64, [1], []⟩
        = Gamma.log_pdf ratOps ⟨(mkG (3:ℚ) 2).alpha, (mkG (3:ℚ) 2).beta, "Other",
            [], (mkG (3:ℚ) 2).alpha, (mkG (3:ℚ) 2).alpha⟩ ⟨DType.float64, [1], []⟩ ∧
      Gamma.pdf ratOps (mkG (3:ℚ) 2) ⟨DType.float64, [1], []⟩
        = Gamma.pdf ratOps ⟨(mkG (3:ℚ) 2).alpha, (mkG (3:ℚ) 2).beta, "Other",
            [], (mkG (3:ℚ) 2).alpha, (mkG (3:ℚ) 2).alpha⟩ ⟨DType.float64, [1], []⟩ ∧
      Gamma.log_cdf ratOps (mkG (3:ℚ) 2) ⟨DType.float64, [1], []⟩
        = Gamma.log_cdf ratOps ⟨(mkG (3:ℚ) 2).alpha, (mkG (3:ℚ) 2).beta, "Other",
            [], (mkG (3:ℚ) 2).alpha, (mkG (3:ℚ) 2).alpha⟩ ⟨DType.float64, [1], []⟩ ∧
      Gamma.cdf ratOps (mkG (3:ℚ) 2) ⟨DType.float64, [1], []⟩
        = Gamma.cdf ratOps ⟨(mkG (3:ℚ) 2).alpha, (mkG (3:ℚ) 2).beta, "Other",
            [], (mkG (3:ℚ) 2).alpha, (mkG (3:ℚ) 2).alpha⟩ ⟨DType.float64, [1], []⟩ ∧
      Gamma.entropy ratOps (mkG (3:ℚ) 2)
        = Gamma.entropy ratOps ⟨(mkG (3:ℚ) 2).alpha, (mkG (3:ℚ) 2).beta, "Other",
            [], (mkG (3:ℚ) 2).alpha, (mkG (3:ℚ) 2).alpha⟩ ∧
      Gamma.dtype (mkG (3:ℚ) 2)
        = Gamma.dtype (⟨(mkG (3:ℚ) 2).alpha, (mkG (3:ℚ) 2).beta, "Other",
            [], (mkG (3:ℚ) 2).alpha, (mkG (3:ℚ) 2).alpha⟩ : Gamma ℚ) ∧
      Gamma.is_reparameterized (mkG (3:ℚ) 2)
        = Gamma.is_reparameterized (⟨(mkG (3:ℚ) 2).alpha, (mkG (3:ℚ) 2).beta, "Other",
            [], (mkG (3:ℚ) 2).alpha, (mkG (3:ℚ) 2).alpha⟩ : Gamma ℚ)) ∧
    (Gamma.make (⟨DType.float64, [(3:ℚ)], []⟩ : Tensor ℚ) ⟨DType.float64, [2], []⟩ "A").map
        (fun g => (g.mean, g.variance, Gamma.batch_shape g, Gamma.get_event_shape g))
      = (Gamma.make (⟨DType.float64, [(3:ℚ)], []⟩ : Tensor ℚ) ⟨DType.float64, [2], []⟩ "B").map
        (fun g => (g.mean, g.variance, Gamma.batch_shape g, Gamma.get_event_shape g))) :=
  queries_pure_deterministic ratOps (mkG 3 2)
    ⟨(mkG (3:ℚ) 2).alpha, (mkG (3:ℚ) 2).beta, "Other",
      [], (mkG (3:ℚ) 2).alpha, (mkG (3:ℚ) 2).alpha⟩
    ⟨DType.float64, [1], []⟩ ⟨DType.float64, [(3:ℚ)], []⟩ ⟨DType.float64, [2], []⟩
    "A" "B" rfl rfl

/-- Claim C5: `log_cdf` returns `log(igamma(alpha, beta * x))` elementwise,
raises exactly the same errors as `log_pdf` (eager `TypeMismatchError` on a
precision mismatch, `DomainError` from the attached positivity assertion
when the result is realized), and applies `log` unguarded: when the
incomplete-gamma value is exactly `0` the result is `log 0` (negative
infinity in floating point). -/
theorem log_cdf_formula {α : Type} [LinearOrderedField α] (ops : MathOps α)
    (d : DType) (a b xv : α) (g : Gamma α) (x : Tensor α)
    (hg : Gamma.make ⟨d, [a], []⟩ ⟨d, [b], []⟩ "Gamma" = Except.ok g) :
    ((Gamma.log_cdf ops g ⟨d, [xv], []⟩).map Tensor.vals
        = Except.ok [ops.log (ops.igamma a (b * xv))]) ∧
    errOf (Gamma.log_cdf ops g x) = errOf (Gamma.log_pdf ops g x) ∧
    (ops.igamma a (b * xv) = 0 →
      (Gamma.log_cdf ops g ⟨d, [xv], []⟩).map Tensor.vals
        = Except.ok [ops.log 0]) := by
  simp only [Gamma.make, if_pos rfl] at hg
  cases hg
  have hfst : (Gamma.log_cdf ops
      (⟨⟨d, [a], []⟩, ⟨d, [b], []⟩, "Gamma",
        [Tensor.assertPositive (⟨d, [a], []⟩ : Tensor α),
         Tensor.assertPositive (⟨d, [b], []⟩ : Tensor α)],
        Tensor.binop (fun u v => u / v) ⟨d, [a], []⟩ ⟨d, [b], []⟩,
        Tensor.binop (fun u v => u / v) ⟨d, [a], []⟩
          (Tensor.unop (fun v => v * v) ⟨d, [b], []⟩)⟩ : Gamma α)
      ⟨d, [xv], []⟩).map Tensor.vals
      = Except.ok [ops.log (ops.igamma a (b * xv))] := by
    simp only [Gamma.log_cdf, Gamma.dtype, if_pos rfl]
    rfl
  refine ⟨hfst, ?_, fun h0 => by rw [hfst, h0]⟩
  by_cases hd : x.dtype = d
  · simp only [Gamma.log_cdf, Gamma.log_pdf, Gamma.dtype, errOf, runE, if_pos hd,
      Tensor.run, Tensor.binop, Tensor.unop, Tensor.withDeps, Except.bind,
      List.all_append, List.all_nil, List.all_cons, Bool.and_true, Bool.and_self,
      List.nil_append, List.append_nil]
    by_cases hc : (Tensor.assertPositive x && x.checks.all fun c => c) = true
    · simp only [if_pos hc]
    · simp only [if_neg hc]
  · simp only [Gamma.log_cdf, Gamma.log_pdf, Gamma.dtype, errOf, runE, if_neg hd]

/-- Witness for `log_cdf_formula` at `alpha = [3]`, `beta = [2]`,
`xv = 1`, probing the error equality at a `float32` input against the
`float64` distribution. -/
theorem log_cdf_formula_witness :
    ((Gamma.log_cdf ratOps (mkG (3:ℚ) 2) ⟨DType.float64, [1], []⟩).map Tensor.vals
        = Except.ok [ratOps.log (ratOps.igamma 3 (2 * 1))]) ∧
    errOf (Gamma.log_cdf ratOps (mkG (3:ℚ) 2) ⟨DType.float32, [1], []⟩)
        = errOf (Gamma.log_pdf ratOps (mkG (3:ℚ) 2) ⟨DType.float32, [1], []⟩) ∧
    (ratOps.igamma 3 (2 * 1) = 0 →
      (Gamma.log_cdf ratOps (mkG (3:ℚ) 2) ⟨DType.float64, [1], []⟩).map Tensor.vals
        = Except.ok [ratOps.log 0]) :=
  log_cdf_formula ratOps DType.float64 3 2 1 (mkG 3 2)
    ⟨DType.float32, [1], []⟩ (make_mkG 3 2)

theorem log_pdf_real_at_3_2_1 :
    (Gamma.log_pdf realOps (mkG (3:ℝ) 2) ⟨DType.float64, [1], []⟩).map Tensor.vals
      = Except.ok [2 * Real.log 2 - 2] := by
  have hGamma : Real.Gamma 3 = 2 := by
    rw [show (3:ℝ) = (2:ℕ) + 1 by norm_num, Real.Gamma_nat_eq_factorial]
    norm_num
  have h1 : (Gamma.log_pdf realOps (mkG (3:ℝ) 2) ⟨DType.float64, [1], []⟩).map
      Tensor.vals
      = Except.ok [(3:ℝ) * Real.log 2 + (3 - 1) * Real.log 1 - 2 * 1 -
          Real.log |Real.Gamma 3|] := rfl
  have hval : (3:ℝ) * Real.log 2 + (3 - 1) * Real.log 1 - 2 * 1 -
      Real.log |Real.Gamma 3| = 2 * Real.log 2 - 2 := by
    rw [hGamma, abs_of_pos (by norm_num : (0:ℝ) < 2), Real.log_one]
    ring
  rw [h1, hval]

/-- Claim C3 counterexample: for `alpha = 3`, `beta = 2`, `x = 1` (real
semantics) the log-density is `2 ln 2 − 2 ≈ −0.613706`, a negative number —
not `≈ 0.386294` as the claim asserts. -/
theorem log_pdf_value_counterexample :
    ((Gamma.make (⟨DType.float64, [(3:ℝ)], []⟩ : Tensor ℝ) ⟨DType.float64, [2], []⟩
        "Gamma").map (fun g =>
          (Gamma.log_pdf realOps g ⟨DType.float64, [1], []⟩).map Tensor.vals))
      = Except.ok (Except.ok [2 * Real.log 2 - 2]) ∧
    2 * Real.log 2 - 2 < 0 := by
  constructor
  · rw [make_mkG]
    show Except.ok ((Gamma.log_pdf realOps (mkG (3:ℝ) 2)
      ⟨DType.float64, [1], []⟩).map Tensor.vals) = _
    rw [log_pdf_real_at_3_2_1]
  · have := Real.log_two_lt_d9
    linarith

/-- Claim C3 (amended): `log_pdf` returns elementwise
`alpha * log(beta) + (alpha - 1) * log(x) - beta * x - lgamma(alpha)`;
at `alpha = 3`, `beta = 2`, `x = 1` under real semantics the value is
`2 ln 2 − 2 ≈ −0.613706` (the claim's `≈ 0.386294` mis-evaluates its own
formula). -/
theorem log_pdf_formula {α : Type} [LinearOrderedField α] (ops : MathOps α)
    (d : DType) (a b xv : α) (g : Gamma α)
    (hg : Gamma.make ⟨d, [a], []⟩ ⟨d, [b], []⟩ "Gamma" = Except.ok g) :
    ((Gamma.log_pdf ops g ⟨d, [xv], []⟩).map Tensor.vals
        = Except.ok [a * ops.log b + (a - 1) * ops.log xv - b * xv - ops.lgamma a]) ∧
    ((Gamma.log_pdf realOps (mkG (3:ℝ) 2) ⟨DType.float64, [1], []⟩).map Tensor.vals
        = Except.ok [2 * Real.log 2 - 2]) ∧
    (-0.6138 < 2 * Real.log 2 - 2 ∧ 2 * Real.log 2 - 2 < -0.6137) := by
  simp only [Gamma.make, if_pos rfl] at hg
  cases hg
  refine ⟨?_, log_pdf_real_at_3_2_1, ?_, ?_⟩
  · simp only [Gamma.log_pdf, Gamma.dtype, if_pos rfl]
    rfl
  · have := Real.log_two_gt_d9
    linarith
  · have := Real.log_two_lt_d9
    linarith

/-- Witness for `log_pdf_formula` at `alpha = [3]`, `beta = [2]`,
`xv = 1` over `ℚ`. -/
theorem log_pdf_formula_witness :
    ((Gamma.log_pdf ratOps (mkG (3:ℚ) 2) ⟨DType.float64, [1], []⟩).map Tensor.vals
        = Except.ok [3 * ratOps.log 2 + (3 - 1) * ratOps.log 1 - 2 * 1 -
            ratOps.lgamma 3]) ∧
    ((Gamma.log_pdf realOps (mkG (3:ℝ) 2) ⟨DType.float64, [1], []⟩).map Tensor.vals
        = Except.ok [2 * Real.log 2 - 2]) ∧
    (-0.6138 < 2 * Real.log 2 - 2 ∧ 2 * Real.log 2 - 2 < -0.6137) :=
  log_pdf_formula ratOps DType.float64 3 2 1 (mkG 3 2) (make_mkG 3 2)

theorem gammaIntegrand_nonneg (a : ℝ) {t : ℝ} (ht : 0 ≤ t) :
    0 ≤ Real.exp (-t) * t ^ (a - 1) :=
  mul_nonneg (Real.exp_nonneg _) (Real.rpow_nonneg ht _)

theorem gammaIntegrand_intervalIntegrable {a s : ℝ} (ha : 0 < a) (hs : 0 ≤ s) :
    IntervalIntegrable (fun t : ℝ => Real.exp (-t) * t ^ (a - 1))
      MeasureTheory.volume 0 s := by
  rw [intervalIntegrable_iff]
  apply (Real.GammaIntegral_convergent ha).mono_set
  rw [Set.uIoc_of_le hs]
  exact Set.Ioc_subset_Ioi_self

theorem igammaReal_nonneg {a s : ℝ} (ha : 0 < a) (hs : 0 ≤ s) :
    0 ≤ igammaReal a s := by
  unfold igammaReal
  apply div_nonneg _ (Real.Gamma_pos_of_pos ha).le
  apply intervalIntegral.integral_nonneg hs
  intro u hu
  exact gammaIntegrand_nonneg a hu.1

theorem igammaReal_mono {a : ℝ} (ha : 0 < a) {s1 s2 : ℝ}
    (h0 : 0 ≤ s1) (h12 : s1 ≤ s2) : igammaReal a s1 ≤ igammaReal a s2 := by
  unfold igammaReal
  apply div_le_div_of_nonneg_right ?_ (Real.Gamma_pos_of_pos ha).le
  apply intervalIntegral.integral_mono_interval le_rfl h0 h12
  · filter_upwards [MeasureTheory.ae_restrict_mem measurableSet_Ioc] with u hu
    exact gammaIntegrand_nonneg a hu.1.le
  · exact gammaIntegrand_intervalIntegrable ha (h0.trans h12)

theorem igammaReal_le_one {a s : ℝ} (ha : 0 < a) (hs : 0 ≤ s) :
    igammaReal a s ≤ 1 := by
  unfold igammaReal
  rw [div_le_one (Real.Gamma_pos_of_pos ha), Real.Gamma_eq_integral ha,
    intervalIntegral.integral_of_le hs]
  apply MeasureTheory.setIntegral_mono_set (Real.GammaIntegral_convergent ha)
  · filter_upwards [MeasureTheory.ae_restrict_mem measurableSet_Ioi] with u hu
    exact gammaIntegrand_nonneg a hu.le
  · exact Set.Ioc_subset_Ioi_self.eventuallyLE

/-- Claim C8: for a distribution with positive scalar parameters `alpha`,
`beta` and positive inputs `x1 ≤ x2`, `cdf` is monotone —
`cdf(x1) ≤ cdf(x2)` — and every cdf value lies in `[0, 1]`. -/
theorem cdf_monotone_range (a b x1 x2 : ℝ) (g : Gamma ℝ)
    (ha : 0 < a) (hb : 0 < b) (hx1 : 0 < x1) (h12 : x1 ≤ x2)
    (hga : g.alpha = ⟨DType.float64, [a], []⟩)
    (hgb : g.beta = ⟨DType.float64, [b], []⟩) :
    (Gamma.cdf realOps g ⟨DType.float64, [x1], []⟩).vals
        = [igammaReal a (b * x1)] ∧
    (Gamma.cdf realOps g ⟨DType.float64, [x2], []⟩).vals
        = [igammaReal a (b * x2)] ∧
    igammaReal a (b * x1) ≤ igammaReal a (b * x2) ∧
    0 ≤ igammaReal a (b * x1) ∧ igammaReal a (b * x1) ≤ 1 ∧
    0 ≤ igammaReal a (b * x2) ∧ igammaReal a (b * x2) ≤ 1 := by
  have hbx1 : 0 ≤ b * x1 := (mul_pos hb hx1).le
  have hb12 : b * x1 ≤ b * x2 := mul_le_mul_of_nonneg_left h12 hb.le
  have hbx2 : 0 ≤ b * x2 := hbx1.trans hb12
  refine ⟨?_, ?_, ?_, ?_, ?_, ?_, ?_⟩
  · rw [Gamma.cdf, hga, hgb]
    rfl
  · rw [Gamma.cdf, hga, hgb]
    rfl
  · exact igammaReal_mono ha hbx1 hb12
  · exact igammaReal_nonneg ha hbx1
  · exact igammaReal_le_one ha hbx1
  · exact igammaReal_nonneg ha hbx2
  · exact igammaReal_le_one ha hbx2

/-- Witness for `cdf_monotone_range` at `alpha = beta = 1`,
`x1 = 1 ≤ 2 = x2`. -/
theorem cdf_monotone_range_witness :
    (Gamma.cdf realOps (mkG (1:ℝ) 1) ⟨DType.float64, [1], []⟩).vals
        = [igammaReal 1 (1 * 1)] ∧
    (Gamma.cdf realOps (mkG (1:ℝ) 1) ⟨DType.float64, [2], []⟩).vals
        = [igammaReal 1 (1 * 2)] ∧
    igammaReal 1 (1 * 1) ≤ igammaReal 1 (1 * 2) ∧
    0 ≤ igammaReal 1 (1 * 1) ∧ igammaReal 1 (1 * 1) ≤ 1 ∧
    0 ≤ igammaReal 1 (1 * 2) ∧ igammaReal 1 (1 * 2) ≤ 1 :=
  cdf_monotone_range 1 1 1 2 (mkG 1 1) (by norm_num) (by norm_num)
    (by norm_num) (by norm_num) rfl rfl
